import Mathlib

/-!
Shallow embedding of the core of the zowie-agent-sdk-node repository:
the LLM provider layer (system-instruction builder, retry with backoff,
call-event tracking), the HTTP client with event tracking, the contextual
facades, and the dispatcher's response construction.

Sources embedded: src/src/llm/google.ts, src/src/llm/openai.ts (provider
methods and the BaseLLMProvider helpers), src/src/http.ts,
src/src/context.ts, src/src/index.ts.
-/

namespace ZowieAgent

/-- Message author as in the wire protocol: the literal "User" or "Chatbot". -/
inductive Author
  | User
  | Chatbot
deriving DecidableEq, Repr

/-- Conversation message: author, content, ISO-8601 timestamp. -/
structure Message where
  author : Author
  content : String
  timestamp : String
deriving DecidableEq, Repr

/-- Persona: optional name, businessContext, toneOfVoice, all free text.
In the source these are optional string properties; a present-but-empty
string is falsy in JavaScript, which the builder's truthiness checks use. -/
structure Persona where
  name : Option String
  businessContext : Option String
  toneOfVoice : Option String
deriving DecidableEq, Repr

/-- JavaScript truthiness of an optional string parameter:
undefined and the empty string are falsy, every other string is truthy. -/
def truthy : Option String → Bool
  | none => false
  | some s => s ≠ ""

/-- Embeds BaseLLMProvider.buildPersonaInstruction (src/src/llm/openai.ts,
third segment, lines 539-556): each present-and-truthy persona attribute
contributes one tagged part; the parts are joined with the literal
two-character sequences backslash-n (the source template literals contain
escaped backslashes, so the separators are literal backslash-n text,
not newlines); the result is wrapped in a persona envelope. -/
def buildPersonaInstruction (p : Persona) : String :=
  let parts : List String :=
    (match p.name with
      | some n => if n = "" then [] else ["<name>" ++ (n ++ "</name>")]
      | none => []) ++
    (match p.businessContext with
      | some b => if b = "" then [] else
          ["<business_context>\\n" ++ (b ++ "\\n</business_context>")]
      | none => []) ++
    (match p.toneOfVoice with
      | some t => if t = "" then [] else
          ["<tone_of_voice>\\n" ++ (t ++ "\\n</tone_of_voice>")]
      | none => [])
  let content :=
    if parts.length > 0 then "\\n" ++ (String.intercalate "\\n\\n" parts ++ "\\n")
    else "\\n"
  "<persona>" ++ (content ++ "</persona>")

/-- Embeds the parts accumulation of BaseLLMProvider.buildSystemInstruction
(src/src/llm/openai.ts, third segment, lines 506-533): persona block when
the effective include flag is true and a persona object is supplied,
instruction block when the explicit instruction is truthy, context block
when the context is truthy and the effective include flag is true.
The effective flags use nullish coalescing onto the provider defaults. -/
def systemInstructionParts (systemInstruction : Option String)
    (includePersona includeContext : Option Bool)
    (persona : Option Persona) (context : Option String)
    (includePersonaDefault includeContextDefault : Bool) : List String :=
  let shouldIncludePersona := includePersona.getD includePersonaDefault
  let shouldIncludeContext := includeContext.getD includeContextDefault
  (match persona with
    | some p => if shouldIncludePersona then [buildPersonaInstruction p] else []
    | none => []) ++
  ((if truthy systemInstruction then
      ["<instructions>\\n" ++ (systemInstruction.getD "" ++ "\\n</instructions>")]
    else []) ++
  (if truthy context && shouldIncludeContext then
      ["<context>\\n" ++ (context.getD "" ++ "\\n</context>")]
    else []))

/-- Embeds BaseLLMProvider.buildSystemInstruction: the parts joined with
the source's separator (the literal text backslash-n backslash-n). -/
def buildSystemInstruction (systemInstruction : Option String)
    (includePersona includeContext : Option Bool)
    (persona : Option Persona) (context : Option String)
    (includePersonaDefault includeContextDefault : Bool) : String :=
  String.intercalate "\\n\\n"
    (systemInstructionParts systemInstruction includePersona includeContext
      persona context includePersonaDefault includeContextDefault)

/-- A string begins with the given tag (character-list comparison). -/
def startsWithStr (pre s : String) : Bool :=
  decide (pre.data = s.data.take pre.length)

/-- One of the joined instruction blocks carries the given opening tag. -/
def containsBlock (tag : String) (parts : List String) : Bool :=
  parts.any (fun s => startsWithStr tag s)

theorem startsWithStr_append (pre lit rest : String)
    (h : pre.length ≤ lit.length) :
    startsWithStr pre (lit ++ rest) = startsWithStr pre lit := by
  have hdata : (lit ++ rest).data = lit.data ++ rest.data := rfl
  have hlen : pre.length ≤ lit.data.length := h
  simp only [startsWithStr, hdata, List.take_append_of_le_length hlen]

theorem personaBlock_tag (q : Persona) :
    startsWithStr "<persona>" (buildPersonaInstruction q) = true := by
  unfold buildPersonaInstruction
  rw [startsWithStr_append "<persona>" "<persona>" _ (by decide)]
  decide

theorem personaBlock_not_context (q : Persona) :
    startsWithStr "<context>" (buildPersonaInstruction q) = false := by
  unfold buildPersonaInstruction
  rw [startsWithStr_append "<context>" "<persona>" _ (by decide)]
  decide

theorem instrBlock_not_persona (x : String) :
    startsWithStr "<persona>" ("<instructions>\\n" ++ x) = false := by
  rw [startsWithStr_append "<persona>" "<instructions>\\n" _ (by decide)]
  decide

theorem instrBlock_not_context (x : String) :
    startsWithStr "<context>" ("<instructions>\\n" ++ x) = false := by
  rw [startsWithStr_append "<context>" "<instructions>\\n" _ (by decide)]
  decide

theorem ctxBlock_tag (x : String) :
    startsWithStr "<context>" ("<context>\\n" ++ x) = true := by
  rw [startsWithStr_append "<context>" "<context>\\n" _ (by decide)]
  decide

theorem ctxBlock_not_persona (x : String) :
    startsWithStr "<persona>" ("<context>\\n" ++ x) = false := by
  rw [startsWithStr_append "<persona>" "<context>\\n" _ (by decide)]
  decide

theorem intercalate_nil (s : String) : String.intercalate s [] = "" := rfl

/-- Claim C4: the system-instruction builder's output contains the persona
envelope exactly when the effective includePersona flag is true and a
persona object is supplied, contains the context envelope exactly when the
context is truthy and the effective includeContext flag is true, and when
all three sources are absent or excluded the result is the empty string. -/
theorem system_instruction_envelopes (si : Option String) (ip ic : Option Bool)
    (p : Option Persona) (ctx : Option String) (ipd icd : Bool) :
    (containsBlock "<persona>" (systemInstructionParts si ip ic p ctx ipd icd)
       = (ip.getD ipd && p.isSome))
  ∧ (containsBlock "<context>" (systemInstructionParts si ip ic p ctx ipd icd)
       = (truthy ctx && ic.getD icd))
  ∧ ((ip.getD ipd && p.isSome) = false → truthy si = false →
       (truthy ctx && ic.getD icd) = false →
       buildSystemInstruction si ip ic p ctx ipd icd = "") := by
  cases hA : ip.getD ipd <;> cases hB : truthy si <;>
    cases hC : (truthy ctx && ic.getD icd) <;> rcases p with _ | q <;>
      simp [containsBlock, systemInstructionParts, buildSystemInstruction,
        List.any_append, hA, hB, hC, personaBlock_tag, personaBlock_not_context,
        instrBlock_not_persona, instrBlock_not_context, ctxBlock_tag,
        ctxBlock_not_persona, intercalate_nil]

/-- Witness for C4: with every source absent the builder returns the
empty string. -/
theorem system_instruction_envelopes_witness :
    buildSystemInstruction none none none none none true true = "" :=
  (system_instruction_envelopes none none none none none true true).2.2 rfl rfl rfl

/-- Error thrown by a provider call: either an ApiError from the Google
GenAI SDK, carrying an HTTP status and a message, or any other error,
carrying only a message. -/
inductive ProviderError
  | apiError (status : Nat) (message : String)
  | other (message : String)
deriving DecidableEq, Repr

/-- Embeds GoogleProvider.isRetryableError (src/src/llm/google.ts lines
68-77): an ApiError with status 429 or at least 500 is retryable; every
other error is not. -/
def isRetryableError : ProviderError → Bool
  | .apiError status _ => status == 429 || decide (500 ≤ status)
  | .other _ => false

/-- Message carried by a provider error, modeling the error.message read
by the event-recording catch branch. -/
def errMessage : ProviderError → String
  | .apiError _ message => message
  | .other message => message

/-- Embeds the loop of GoogleProvider.retryWithBackoff (src/src/llm/google.ts
lines 39-66). The operation is modeled as a map from the 0-indexed physical
attempt number to that attempt's outcome. The loop bound
attempt <= maxRetries is carried as the remaining budget
remaining = maxRetries - attempt, so attempt < maxRetries exactly when
remaining is a successor. Returns the result together with the number of
physical attempts performed. -/
def retryAux (op : Nat → Except ProviderError α) (attempt : Nat) :
    Nat → Except ProviderError α × Nat
  | 0 =>
    match op attempt with
    | .ok v => (.ok v, attempt + 1)
    | .error e => (.error e, attempt + 1)
  | r + 1 =>
    match op attempt with
    | .ok v => (.ok v, attempt + 1)
    | .error e =>
        if isRetryableError e then retryAux op (attempt + 1) r
        else (.error e, attempt + 1)

/-- GoogleProvider.retryWithBackoff entry point: attempts start at 0 with
the full retry budget (maxRetries defaults to 3 in the source). -/
def retryWithBackoff (op : Nat → Except ProviderError α) (maxRetries : Nat) :
    Except ProviderError α × Nat :=
  retryAux op 0 maxRetries

theorem retryAux_all_fail (op : Nat → Except ProviderError α) (e : ProviderError)
    (he : isRetryableError e = true) (hop : ∀ i, op i = .error e) :
    ∀ remaining attempt, retryAux op attempt remaining = (.error e, attempt + remaining + 1) := by
  intro remaining
  induction remaining with
  | zero => intro a; simp [retryAux, hop a]
  | succ r ih =>
      intro a
      simp only [retryAux, hop a, he, if_true]
      rw [ih (a + 1)]
      congr 1
      omega

/-- Claim C2: an ApiError with status 429 or at least 500 is classified
retryable and a call that keeps failing with such an error performs
exactly 4 physical attempts (initial plus 3 retries); an ApiError with
status 400, 403 or 404 is classified terminal and the call performs
exactly one attempt. -/
theorem retry_classification_and_attempt_counts
    (op : Nat → Except ProviderError String) (e : ProviderError)
    (s : Nat) (m : String) :
    (isRetryableError (.apiError 429 m) = true)
  ∧ (500 ≤ s → isRetryableError (.apiError s m) = true)
  ∧ (s = 400 ∨ s = 403 ∨ s = 404 → isRetryableError (.apiError s m) = false)
  ∧ (isRetryableError e = true → (∀ i, op i = .error e) →
       retryWithBackoff op 3 = (.error e, 4))
  ∧ (isRetryableError e = false → op 0 = .error e →
       retryWithBackoff op 3 = (.error e, 1)) := by
  refine ⟨rfl, ?_, ?_, ?_, ?_⟩
  · intro hs
    simp [isRetryableError, hs]
  · rintro (rfl | rfl | rfl) <;> rfl
  · intro he hop
    exact retryAux_all_fail op e he hop 3 0
  · intro he hop
    simp [retryWithBackoff, retryAux, hop, he]

/-- Always-failing operation with a 503 ApiError. -/
def alwaysError503 : Nat → Except ProviderError String :=
  fun _ => .error (.apiError 503 "overloaded")

/-- Always-failing operation with a 404 ApiError. -/
def alwaysError404 : Nat → Except ProviderError String :=
  fun _ => .error (.apiError 404 "not found")

/-- Witness for C2: a persistent 503 yields 4 attempts; a 404 yields one. -/
theorem retry_attempt_counts_witness :
    retryWithBackoff alwaysError503 3 = (.error (.apiError 503 "overloaded"), 4)
  ∧ retryWithBackoff alwaysError404 3 = (.error (.apiError 404 "not found"), 1) :=
  ⟨(retry_classification_and_attempt_counts alwaysError503
      (.apiError 503 "overloaded") 0 "").2.2.2.1 (by decide) (fun _ => rfl),
   (retry_classification_and_attempt_counts alwaysError404
      (.apiError 404 "not found") 0 "").2.2.2.2 (by decide) rfl⟩

/-- Models the delay computation of GoogleProvider.retryWithBackoff line 53:
baseDelay * 2 ** attempt + Math.random() * 500, where rand stands for the
value returned by Math.random(), which lies in [0, 1). Modeled over the
rationals. -/
def backoffDelay (baseDelay : ℚ) (attempt : Nat) (rand : ℚ) : ℚ :=
  baseDelay * 2 ^ attempt + rand * 500

/-- Claim C3: the backoff delay for 0-indexed attempt i lies in the
half-open interval from baseDelay * 2 ^ i (inclusive, so the jitter is
additive and non-negative) up to baseDelay * 2 ^ i + 500 (exclusive, so
the jitter is strictly below 500 ms), and the exponential part grows
strictly with the attempt index. -/
theorem backoff_delay_interval (base rand : ℚ) (i : Nat)
    (hbase : 0 < base) (h0 : 0 ≤ rand) (h1 : rand < 1) :
    base * 2 ^ i ≤ backoffDelay base i rand
  ∧ backoffDelay base i rand < base * 2 ^ i + 500
  ∧ base * 2 ^ i < base * 2 ^ (i + 1) := by
  have hp : (0 : ℚ) < 2 ^ i := by positivity
  refine ⟨?_, ?_, ?_⟩
  · have : 0 ≤ rand * 500 := by nlinarith
    unfold backoffDelay
    linarith
  · have : rand * 500 < 500 := by nlinarith
    unfold backoffDelay
    linarith
  · rw [pow_succ]
    nlinarith

/-- Witness for C3: the default base of 1000 ms at attempt 0 with a jitter
draw of one half lies in the stated interval. -/
theorem backoff_delay_interval_witness :
    1000 * 2 ^ 0 ≤ backoffDelay 1000 0 (1 / 2)
  ∧ backoffDelay 1000 0 (1 / 2) < 1000 * 2 ^ 0 + 500
  ∧ (1000 : ℚ) * 2 ^ 0 < 1000 * 2 ^ (0 + 1) :=
  backoff_delay_interval 1000 (1 / 2) 0 (by norm_num) (by norm_num) (by norm_num)

/-- Payload of an llm_call event (src/src/llm/openai.ts, third segment,
createLLMCallEvent). -/
structure LLMCallPayload where
  prompt : String
  response : String
  model : String
  durationInMillis : Nat
deriving DecidableEq, Repr

/-- Payload of an api_call event (src/src/http.ts). -/
structure APICallPayload where
  url : String
  requestMethod : String
  requestHeaders : List (String × String)
  requestBody : Option String
  responseHeaders : List (String × String)
  responseStatusCode : Nat
  responseBody : Option String
  durationInMillis : Nat
deriving DecidableEq, Repr

/-- Tagged union of call events appended to a request's event list. -/
inductive Event
  | llmCall (payload : LLMCallPayload)
  | apiCall (payload : APICallPayload)
deriving DecidableEq, Repr

/-- Models JSON.stringify of the prompt record with keys messages,
system_instruction and optional response_schema assembled by
createLLMCallEvent. The exact JSON text is irrelevant to every claim here;
the model keeps the three components in a simple concatenation. -/
def promptJson (messages : List Message) (systemInstruction : String)
    (responseSchema : Option String) : String :=
  String.intercalate "|" (messages.map Message.content) ++ ("|" ++ systemInstruction) ++
    (match responseSchema with
      | some s => "|" ++ s
      | none => "")

/-- Embeds BaseLLMProvider.createLLMCallEvent: one llm_call event carrying
the serialized prompt, the response text, the model name and the elapsed
milliseconds. -/
def createLLMCallEvent (model : String) (messages : List Message)
    (systemInstruction : String) (response : String) (durationMs : Nat)
    (responseSchema : Option String) : Event :=
  .llmCall {
    prompt := promptJson messages systemInstruction responseSchema
    response := response
    model := model
    durationInMillis := durationMs }

/-- Embeds BaseLLMProvider.withTiming (src/src/llm/openai.ts, third
segment, lines 592-639). The awaited operation is modeled by its final
outcome op; serialize models the read of the result as text
(the result itself when it is a string, JSON.stringify otherwise); the
elapsed duration is an ambient input. On success the serialized result is
recorded, on failure an event whose response is the text "Error: "
followed by the failure message is recorded and the failure re-raised.
Both branches push exactly one event onto the event list. -/
def withTiming (op : Except String α) (serialize : α → String) (model : String)
    (messages : List Message) (systemInstruction : String) (events : List Event)
    (durationMs : Nat) (responseSchema : Option String) :
    Except String α × List Event :=
  match op with
  | .ok result =>
      (.ok result,
        events ++ [createLLMCallEvent model messages systemInstruction
          (serialize result) durationMs responseSchema])
  | .error msg =>
      (.error msg,
        events ++ [createLLMCallEvent model messages systemInstruction
          ("Error: " ++ msg) durationMs responseSchema])

/-- Claim C7: when the wrapped provider operation fails after retries are
exhausted, withTiming still appends exactly one LLMCallEvent, whose
response field is "Error: " concatenated with the failure's message, and
re-raises the same failure: the appended list is the old list plus that
single event, and the returned outcome is the original error. -/
theorem withTiming_failure_records_and_rethrows {α : Type}
    (op : Except String α) (serialize : α → String) (model : String)
    (messages : List Message) (systemInstruction : String) (events : List Event)
    (durationMs : Nat) (responseSchema : Option String) (msg : String)
    (hop : op = .error msg) :
    (withTiming op serialize model messages systemInstruction events
        durationMs responseSchema).1 = .error msg
  ∧ (withTiming op serialize model messages systemInstruction events
        durationMs responseSchema).2
      = events ++ [createLLMCallEvent model messages systemInstruction
          ("Error: " ++ msg) durationMs responseSchema] := by
  subst hop
  exact ⟨rfl, rfl⟩

/-- Witness for C7 at a concrete failing operation. -/
theorem withTiming_failure_witness :
    (withTiming (.error "boom" : Except String String) (fun s => s) "gpt-test"
        [] "" [] 5 none).1 = .error "boom"
  ∧ (withTiming (.error "boom" : Except String String) (fun s => s) "gpt-test"
        [] "" [] 5 none).2
      = [createLLMCallEvent "gpt-test" [] "" ("Error: " ++ "boom") 5 none] :=
  withTiming_failure_records_and_rethrows (.error "boom") (fun s => s) "gpt-test"
    [] "" [] 5 none "boom" rfl

/-- Extraction of candidate texts in the Google multi-candidate methods:
candidate.content?.parts?[0]?.text is modeled as an optional string per
candidate, and a candidate is kept when the text is present and truthy. -/
def googleCandidateTexts (candidates : List (Option String)) : List String :=
  candidates.filterMap (fun c =>
    match c with
    | some t => if t = "" then none else some t
    | none => none)

/-- Embeds the candidate collection and emptiness check of
GoogleProvider.generateContentWithCandidates (src/src/llm/google.ts lines
237-251): collects truthy texts and fails when none remain. -/
def googleContentCandidatesCore (candidates : List (Option String)) :
    Except String (List String) :=
  let results := googleCandidateTexts candidates
  if results.isEmpty then .error "No content received from Google" else .ok results

/-- Embeds the per-candidate validation loop and emptiness check of
GoogleProvider.generateStructuredContentWithCandidates (src/src/llm/google.ts
lines 309-330): validate models JSON.parse followed by schema.parse inside
a try/catch whose catch skips the candidate with a warning; the call fails
when no validated result remains. -/
def googleStructuredCandidatesCore {T : Type} (validate : String → Except String T)
    (candidates : List (Option String)) : Except String (List T) :=
  let results := (googleCandidateTexts candidates).filterMap
    (fun t => (validate t).toOption)
  if results.isEmpty then .error "No valid parsed content received from Google"
  else .ok results

/-- Embeds the candidate collection of
OpenAIProvider.generateStructuredContentWithCandidates (src/src/llm/openai.ts,
second segment, lines 403-415): each choice contributes its parsed message
when present, and the call fails when none is. -/
def openaiStructuredCandidatesCore {T : Type} (choices : List (Option T)) :
    Except String (List T) :=
  let results := choices.filterMap id
  if results.isEmpty then .error "No parsed content received from OpenAI"
  else .ok results

theorem emptyGuard_spec {T : Type} (s : String) (l : List T) :
    (l ≠ [] → (if l.isEmpty then (.error s : Except String (List T)) else .ok l) = .ok l)
  ∧ ((if l.isEmpty then (.error s : Except String (List T)) else .ok l) = .error s
       ↔ l = []) := by
  cases l <;> simp

/-- Claim C5: the structured multi-candidate call returns exactly the list
of schema-conformant candidate values (in order) whenever at least one
candidate validates, and fails exactly when no candidate validates, for
both the Google and the OpenAI provider. -/
theorem structured_candidates_exactly_valid {T : Type}
    (validate : String → Except String T) (candidates : List (Option String))
    (choices : List (Option T)) :
    ((googleCandidateTexts candidates).filterMap (fun t => (validate t).toOption) ≠ [] →
       googleStructuredCandidatesCore validate candidates
         = .ok ((googleCandidateTexts candidates).filterMap (fun t => (validate t).toOption)))
  ∧ (googleStructuredCandidatesCore validate candidates
         = .error "No valid parsed content received from Google"
       ↔ (googleCandidateTexts candidates).filterMap (fun t => (validate t).toOption) = [])
  ∧ (choices.filterMap id ≠ [] →
       openaiStructuredCandidatesCore choices = .ok (choices.filterMap id))
  ∧ (openaiStructuredCandidatesCore choices = .error "No parsed content received from OpenAI"
       ↔ choices.filterMap id = []) := by
  refine ⟨?_, ?_, ?_, ?_⟩
  · exact (emptyGuard_spec _ _).1
  · exact (emptyGuard_spec _ _).2
  · exact (emptyGuard_spec _ _).1
  · exact (emptyGuard_spec _ _).2

/-- Validator used by concrete witnesses: accepts exactly the text "good". -/
def demoValidate : String → Except String Nat :=
  fun s => if s = "good" then .ok 1 else .error "bad"

/-- Witness for C5: of four candidates only one validates and exactly its
value is returned. -/
theorem structured_candidates_witness :
    googleStructuredCandidatesCore demoValidate [some "good", some "bad", none, some ""]
      = .ok [1] :=
  (structured_candidates_exactly_valid demoValidate
    [some "good", some "bad", none, some ""] ([] : List (Option Nat))).1 (by decide)

/-- Validator that rejects every candidate. -/
def failValidate : String → Except String Nat :=
  fun _ => .error "invalid"

/-- Counterexample to C6 as stated: in the structured multi-candidate form,
the provider returning zero usable candidates and the provider returning
candidates that all fail schema validation produce the very same error,
not distinguishable ones. -/
theorem candidates_error_not_distinct_counterexample :
    googleStructuredCandidatesCore failValidate []
      = googleStructuredCandidatesCore failValidate [some "x"]
  ∧ googleStructuredCandidatesCore failValidate []
      = .error "No valid parsed content received from Google" :=
  ⟨rfl, rfl⟩

/-- Claim C6 amended: the plain multi-candidate form fails with a
"no content received" error when zero usable candidates are returned,
while the structured multi-candidate form fails with one and the same
"no valid parsed content" error both when zero usable candidates are
returned and when every candidate fails validation; the plain-form and
structured-form error messages are distinct from each other. -/
theorem candidates_error_messages {T : Type}
    (validate : String → Except String T) (candidates : List (Option String))
    (choices : List (Option T)) :
    ((googleCandidateTexts candidates).filterMap (fun t => (validate t).toOption) = [] →
       googleStructuredCandidatesCore validate candidates
         = .error "No valid parsed content received from Google")
  ∧ (googleCandidateTexts candidates = [] →
       googleContentCandidatesCore candidates = .error "No content received from Google")
  ∧ (choices.filterMap id = [] →
       openaiStructuredCandidatesCore choices
         = .error "No parsed content received from OpenAI")
  ∧ ("No content received from Google" ≠ "No valid parsed content received from Google") := by
  refine ⟨?_, ?_, ?_, by decide⟩
  · intro h
    simp [googleStructuredCandidatesCore, h]
  · intro h
    simp [googleContentCandidatesCore, h]
  · intro h
    simp [openaiStructuredCandidatesCore, h]

/-- Witness for C6 (amended): a response whose candidates carry no usable
text fails the plain form with the "no content received" error. -/
theorem candidates_error_messages_witness :
    googleContentCandidatesCore [none, some ""] = .error "No content received from Google" :=
  (candidates_error_messages failValidate [none, some ""]
    ([] : List (Option Nat))).2.1 (by decide)

/-- Google-native turn: role plus text parts. -/
structure GoogleTurn where
  role : String
  parts : List String
deriving DecidableEq, Repr

/-- OpenAI-native turn: role plus content. -/
structure OpenAITurn where
  role : String
  content : String
deriving DecidableEq, Repr

/-- Embeds GoogleProvider.prepareHistory (src/src/llm/google.ts lines
340-351): each message becomes one turn in order, the "User" author maps
to the user role and every other author to the model role. -/
def prepareHistory (messages : List Message) : List GoogleTurn :=
  messages.map (fun m =>
    { role := if m.author = .User then "user" else "model"
      parts := [m.content] })

/-- Embeds OpenAIProvider.prepareMessages (src/src/llm/openai.ts, second
segment, lines 425-443): an optional leading system turn when the built
system instruction is truthy, then each message in order, the "User"
author mapped to the user role and every other author to the assistant
role. -/
def prepareMessages (messages : List Message) (systemInstruction : Option String) :
    List OpenAITurn :=
  (if truthy systemInstruction then
      [{ role := "system", content := systemInstruction.getD "" }]
    else []) ++
  messages.map (fun m =>
    { role := if m.author = .User then "user" else "assistant"
      content := m.content })

/-- Claim C8: translating messages into a provider's native turn format
keeps the length and the order of the messages and maps the "User" author
to a user-role turn and any other author to the model role (Google) or
the assistant role (OpenAI); in the OpenAI shape the message turns sit
after the optional leading system turn. -/
theorem prepare_turns_role_mapping (messages : List Message)
    (si : Option String) (i : Nat) (m : Message)
    (h : messages.get? i = some m) :
    (prepareHistory messages).length = messages.length
  ∧ (prepareHistory messages).get? i
      = some { role := if m.author = .User then "user" else "model"
               parts := [m.content] }
  ∧ (prepareMessages messages si).length
      = (if truthy si then 1 else 0) + messages.length
  ∧ (prepareMessages messages si).get? ((if truthy si then 1 else 0) + i)
      = some { role := if m.author = .User then "user" else "assistant"
               content := m.content } := by
  rw [List.get?_eq_getElem?] at h
  refine ⟨by simp [prepareHistory], ?_, ?_, ?_⟩
  · simp [prepareHistory, List.get?_eq_getElem?, List.getElem?_map, h]
  · cases hsi : truthy si <;> simp [prepareMessages, hsi, Nat.add_comm]
  · cases hsi : truthy si
    · simp [prepareMessages, hsi, List.get?_eq_getElem?, List.getElem?_map, h]
    · have hidx : (1 : Nat) + i = i + 1 := Nat.add_comm 1 i
      simp [prepareMessages, hsi, hidx, List.get?_eq_getElem?, List.getElem?_map, h]

/-- Demo user message for witnesses. -/
def demoUserMsg : Message := { author := .User, content := "hello", timestamp := "t0" }

/-- Demo chatbot message for witnesses. -/
def demoBotMsg : Message := { author := .Chatbot, content := "hi", timestamp := "t1" }

/-- Witness for C8: with a system instruction, the second message (from
the Chatbot author) lands at index 2 as an assistant turn. -/
theorem prepare_turns_role_mapping_witness :
    (prepareMessages [demoUserMsg, demoBotMsg] (some "sys")).get? 2
      = some { role := "assistant", content := "hi" } :=
  (prepare_turns_role_mapping [demoUserMsg, demoBotMsg] (some "sys") 1 demoBotMsg rfl).2.2.2

/-- The two observations the HTTP client makes of a request body value:
its JavaScript truthiness and its JSON.stringify serialization. -/
structure JSValue where
  isTruthy : Bool
  json : String
deriving DecidableEq, Repr

/-- Lookup headers[key] on a plain-object headers record. -/
def getHeader (headers : List (String × String)) (key : String) : Option String :=
  (headers.find? (fun kv => kv.1 == key)).map (fun kv => kv.2)

/-- Assignment headers[key] = value on a plain-object headers record:
overwrites an existing entry, otherwise appends one. -/
def setHeader (headers : List (String × String)) (key value : String) :
    List (String × String) :=
  if (headers.find? (fun kv => kv.1 == key)).isSome then
    headers.map (fun kv => if kv.1 == key then (key, value) else kv)
  else headers ++ [(key, value)]

/-- Failure classification of a thrown fetch error, as read by
utils.isTimeoutError and isAbortError. -/
inductive FailureKind
  | timeout
  | abort
  | otherFailure
deriving DecidableEq, Repr

/-- Outcome of the underlying fetch call: a response with status, headers
and body text, or a thrown failure carrying error.message. -/
inductive FetchOutcome
  | success (status : Nat) (responseHeaders : List (String × String)) (body : String)
  | failure (kind : FailureKind) (message : String)
deriving DecidableEq, Repr

/-- Result of one HTTPClient.request call: the returned or thrown outcome,
the event list after the call, and the caller's headers object after the
call (the in-place mutation made visible). -/
structure HttpResult where
  result : Except String (Nat × List (String × String) × String)
  events : List Event
  finalHeaders : List (String × String)

/-- The in-place Content-Type adjustment of HTTPClient.request
(src/src/http.ts lines 80-85): when a body is defined and the method is
neither GET nor DELETE, a falsy Content-Type entry (absent or empty) is
set to application/json on the caller's headers object. -/
def adjustedHeaders (method : String) (headers : List (String × String))
    (body : Option JSValue) : List (String × String) :=
  if body.isSome && !(method == "GET") && !(method == "DELETE")
      && !(truthy (getHeader headers "Content-Type")) then
    setHeader headers "Content-Type" "application/json"
  else headers

/-- Embeds HTTPClient.request (src/src/http.ts lines 57-179). The fetch
outcome and the measured duration are inputs. The headers object is
adjusted in place before the fetch; on failure the event carries the
mapped status code (504 timeout, 499 abort, 0 otherwise) and the error
body text; on success it carries the response data. In both branches
exactly one api_call event is appended, recording the (possibly mutated)
headers object when header inclusion is on. -/
def httpRequest (method url : String) (headers : List (String × String))
    (events : List Event) (body : Option JSValue)
    (includeHeaders includeRequestBody : Bool)
    (outcome : FetchOutcome) (durationMs : Nat) : HttpResult :=
  let headersAfter := adjustedHeaders method headers body
  let requestBodyField :=
    if includeRequestBody && (match body with
        | some b => b.isTruthy
        | none => false) then
      body.map JSValue.json
    else none
  match outcome with
  | .failure kind message =>
      let statusCode : Nat :=
        match kind with
        | .timeout => 504
        | .abort => 499
        | .otherFailure => 0
      let errorResponseBody :=
        match kind with
        | .timeout => "Request timeout"
        | .abort => "Request aborted"
        | .otherFailure => message
      { result := .error message
        events := events ++ [Event.apiCall {
          url := url
          requestMethod := method
          requestHeaders := if includeHeaders then headersAfter else []
          requestBody := requestBodyField
          responseHeaders := []
          responseStatusCode := statusCode
          responseBody := some errorResponseBody
          durationInMillis := durationMs }]
        finalHeaders := headersAfter }
  | .success status responseHeaders bodyText =>
      { result := .ok (status, responseHeaders, bodyText)
        events := events ++ [Event.apiCall {
          url := url
          requestMethod := method
          requestHeaders := if includeHeaders then headersAfter else []
          requestBody := requestBodyField
          responseHeaders := if includeHeaders then responseHeaders else []
          responseStatusCode := status
          responseBody := some bodyText
          durationInMillis := durationMs }]
        finalHeaders := headersAfter }

theorem httpRequest_headers_and_event (method url : String)
    (headers : List (String × String)) (events : List Event)
    (body : Option JSValue) (includeRequestBody : Bool)
    (outcome : FetchOutcome) (durationMs : Nat) :
    (httpRequest method url headers events body true includeRequestBody
        outcome durationMs).finalHeaders = adjustedHeaders method headers body
  ∧ ∃ p, (httpRequest method url headers events body true includeRequestBody
        outcome durationMs).events = events ++ [Event.apiCall p]
      ∧ p.requestHeaders = adjustedHeaders method headers body := by
  cases outcome <;> exact ⟨rfl, _, rfl, rfl⟩

/-- Request body used by the HTTP witnesses. -/
def demoBody : JSValue := { isTruthy := true, json := "\x7b\x7d" }

/-- Counterexample to C10 as stated: a headers record that does contain a
Content-Type key, with the empty string as its value, is not left
unchanged — the falsy entry is overwritten with application/json. -/
theorem content_type_present_but_overwritten_counterexample :
    (httpRequest "POST" "https://api.example" [("Content-Type", "")] []
        (some demoBody) true true (.success 200 [] "ok") 3).finalHeaders
      = [("Content-Type", "application/json")] := rfl

/-- Claim C10 amended: for POST, PUT or PATCH with a defined body, when
the caller's headers record has no truthy Content-Type entry (the key is
absent, or maps to the empty string) the record is mutated in place to
carry Content-Type: application/json, and the mutated record is what the
appended event records as requestHeaders (with header inclusion on);
records whose Content-Type value is non-empty, and GET or DELETE calls,
leave the record unchanged. -/
theorem http_content_type_mutation (method url : String)
    (headers : List (String × String)) (b : JSValue) (body : Option JSValue)
    (events : List Event) (includeRequestBody : Bool)
    (outcome : FetchOutcome) (durationMs : Nat) :
    ((method = "POST" ∨ method = "PUT" ∨ method = "PATCH") →
      truthy (getHeader headers "Content-Type") = false →
      (httpRequest method url headers events (some b) true includeRequestBody
          outcome durationMs).finalHeaders
        = setHeader headers "Content-Type" "application/json"
      ∧ ∃ p, (httpRequest method url headers events (some b) true includeRequestBody
            outcome durationMs).events = events ++ [Event.apiCall p]
          ∧ p.requestHeaders = setHeader headers "Content-Type" "application/json")
  ∧ (truthy (getHeader headers "Content-Type") = true →
      (httpRequest method url headers events body true includeRequestBody
          outcome durationMs).finalHeaders = headers)
  ∧ ((method = "GET" ∨ method = "DELETE") →
      (httpRequest method url headers events body true includeRequestBody
          outcome durationMs).finalHeaders = headers) := by
  refine ⟨?_, ?_, ?_⟩
  · intro hm h2
    have hadj : adjustedHeaders method headers (some b)
        = setHeader headers "Content-Type" "application/json" := by
      rcases hm with rfl | rfl | rfl <;> simp [adjustedHeaders, h2]
    obtain ⟨hfin, p, hev, hhdr⟩ :=
      httpRequest_headers_and_event method url headers events (some b)
        includeRequestBody outcome durationMs
    exact ⟨hfin.trans hadj, p, hev, hhdr.trans hadj⟩
  · intro h2
    have hadj : adjustedHeaders method headers body = headers := by
      simp [adjustedHeaders, h2]
    exact (httpRequest_headers_and_event method url headers events body
      includeRequestBody outcome durationMs).1.trans hadj
  · intro hm
    have hadj : adjustedHeaders method headers body = headers := by
      rcases hm with rfl | rfl <;> simp [adjustedHeaders]
    exact (httpRequest_headers_and_event method url headers events body
      includeRequestBody outcome durationMs).1.trans hadj

/-- Witness for C10 (amended): a POST with empty headers gains the
Content-Type entry. -/
theorem http_content_type_mutation_witness :
    (httpRequest "POST" "https://api.example" [] [] (some demoBody) true true
        (.success 200 [] "ok") 3).finalHeaders
      = setHeader [] "Content-Type" "application/json" :=
  ((http_content_type_mutation "POST" "https://api.example" [] demoBody none []
      true (.success 200 [] "ok") 3).1 (.inl rfl) rfl).1

/-- Embeds GoogleProvider.generateContent (src/src/llm/google.ts lines
79-128): builds the system instruction, runs the underlying API call
through retryWithBackoff (maxRetries 3), and records exactly one event
via withTiming. api maps the 0-indexed physical attempt number to that
attempt's outcome, the response text with the source's
response.text || "" fallback already applied. -/
def googleGenerateContent (model : String)
    (includePersonaDefault includeContextDefault : Bool)
    (messages : List Message) (systemInstruction : Option String)
    (includePersona includeContext : Option Bool) (persona : Option Persona)
    (context : Option String) (events : List Event)
    (api : Nat → Except ProviderError String) (durationMs : Nat) :
    Except String String × List Event :=
  let systemInstructionText := buildSystemInstruction systemInstruction
    includePersona includeContext persona context
    includePersonaDefault includeContextDefault
  withTiming ((retryWithBackoff api 3).1.mapError errMessage) (fun s => s)
    model messages systemInstructionText events durationMs none

/-- Embeds GoogleProvider.generateStructuredContentWithCandidates end to
end (src/src/llm/google.ts lines 261-338): system instruction, retry,
candidate validation, and exactly one event recording the serialized
result list or the error. schemaJson models zodToJsonSchema(schema);
serializeList models JSON.stringify of the returned list. -/
def googleGenerateStructuredWithCandidates {T : Type}
    (serializeList : List T → String) (validate : String → Except String T)
    (schemaJson : String) (model : String)
    (includePersonaDefault includeContextDefault : Bool)
    (messages : List Message) (systemInstruction : Option String)
    (includePersona includeContext : Option Bool) (persona : Option Persona)
    (context : Option String) (events : List Event)
    (api : Nat → Except ProviderError (List (Option String))) (durationMs : Nat) :
    Except String (List T) × List Event :=
  let systemInstructionText := buildSystemInstruction systemInstruction
    includePersona includeContext persona context
    includePersonaDefault includeContextDefault
  let outcome : Except String (List T) :=
    match (retryWithBackoff api 3).1 with
    | .error e => .error (errMessage e)
    | .ok candidates => googleStructuredCandidatesCore validate candidates
  withTiming outcome serializeList model messages systemInstructionText events
    durationMs (some schemaJson)

/-- ContextualLLM.generateContent (src/src/context.ts lines 96-113): the
request's persona, free-text context and event list are pre-bound and
passed to the underlying provider call. -/
def contextualGenerateContent (persona : Option Persona) (context : Option String)
    (events : List Event) (model : String) (ipd icd : Bool)
    (messages : List Message) (systemInstruction : Option String)
    (includePersona includeContext : Option Bool)
    (api : Nat → Except ProviderError String) (durationMs : Nat) :
    Except String String × List Event :=
  googleGenerateContent model ipd icd messages systemInstruction includePersona
    includeContext persona context events api durationMs

/-- ContextualLLM.generateStructuredContentWithCandidates
(src/src/context.ts lines 157-178): same pre-binding for the structured
multi-candidate shape. -/
def contextualGenerateStructuredWithCandidates {T : Type}
    (serializeList : List T → String) (validate : String → Except String T)
    (schemaJson : String) (persona : Option Persona) (context : Option String)
    (events : List Event) (model : String) (ipd icd : Bool)
    (messages : List Message) (systemInstruction : Option String)
    (includePersona includeContext : Option Bool)
    (api : Nat → Except ProviderError (List (Option String))) (durationMs : Nat) :
    Except String (List T) × List Event :=
  googleGenerateStructuredWithCandidates serializeList validate schemaJson model
    ipd icd messages systemInstruction includePersona includeContext persona
    context events api durationMs

/-- ContextualHTTPClient.request forwarding (src/src/context.ts lines
184-232): the request's event list is pre-bound and passed to the
HTTPClient method. -/
def contextualHttpRequest (events : List Event) (method url : String)
    (headers : List (String × String)) (body : Option JSValue)
    (includeHeaders includeRequestBody : Bool) (outcome : FetchOutcome)
    (durationMs : Nat) : HttpResult :=
  httpRequest method url headers events body includeHeaders includeRequestBody
    outcome durationMs

theorem withTiming_event_count {α : Type} (op : Except String α)
    (serialize : α → String) (model : String) (messages : List Message)
    (systemInstruction : String) (events : List Event) (durationMs : Nat)
    (responseSchema : Option String) :
    (withTiming op serialize model messages systemInstruction events
        durationMs responseSchema).2.length = events.length + 1 := by
  cases op <;> simp [withTiming]

/-- Claim C1: every completed call through a contextual facade appends
exactly one event to the request's event list — the contextual LLM
generate call (plain and structured multi-candidate shapes), for every
possible sequence of per-attempt outcomes and hence for every number of
retry attempts performed underneath, and the contextual HTTP request in
success and failure alike, each extend the event list by exactly one
entry. -/
theorem contextual_call_appends_exactly_one_event {T : Type}
    (persona : Option Persona) (context : Option String) (events : List Event)
    (model : String) (ipd icd : Bool) (messages : List Message)
    (si : Option String) (ip ic : Option Bool)
    (api : Nat → Except ProviderError String)
    (serializeList : List T → String) (validate : String → Except String T)
    (schemaJson : String)
    (apiC : Nat → Except ProviderError (List (Option String)))
    (durationMs : Nat) (method url : String)
    (headers : List (String × String)) (body : Option JSValue)
    (includeHeaders includeRequestBody : Bool) (outcome : FetchOutcome)
    (durationMs2 : Nat) :
    ((contextualGenerateContent persona context events model ipd icd messages
        si ip ic api durationMs).2.length = events.length + 1)
  ∧ ((contextualGenerateStructuredWithCandidates serializeList validate
        schemaJson persona context events model ipd icd messages si ip ic
        apiC durationMs).2.length = events.length + 1)
  ∧ ((contextualHttpRequest events method url headers body includeHeaders
        includeRequestBody outcome durationMs2).events.length
      = events.length + 1) := by
  refine ⟨?_, ?_, ?_⟩
  · exact withTiming_event_count _ _ _ _ _ _ _ _
  · exact withTiming_event_count _ _ _ _ _ _ _ _
  · cases outcome <;> simp [contextualHttpRequest, httpRequest]

/-- Command of the outbound wire response. -/
inductive Command
  | sendMessage (message : String)
  | goToNextBlock (nextBlockReferenceKey : String) (message : Option String)
deriving DecidableEq, Repr

/-- Business-logic result (AgentResponse in src/src/domain.ts): continue
the conversation with a message, or transfer to another block. -/
inductive AgentResponse
  | cont (message : String)
  | transfer (nextBlock : String) (message : Option String)
deriving DecidableEq, Repr

/-- Outbound response body on success. -/
structure ExternalAgentResponse where
  command : Command
  valuesToSave : Option (List (String × String))
  events : Option (List Event)
deriving DecidableEq, Repr

/-- Failure reaching the POST handler's catch branch: a ZodError from
request validation, or any other thrown error, each carrying its message. -/
inductive HandlerError
  | zodError (message : String)
  | businessError (message : String)
deriving DecidableEq, Repr

/-- Error response body: HTTP status plus the error and message fields. -/
structure ErrorBody where
  status : Nat
  error : String
  message : String
deriving DecidableEq, Repr

/-- What the orchestrator receives back from one POST dispatch. -/
inductive WireResponse
  | success (response : ExternalAgentResponse)
  | failure (body : ErrorBody)
deriving DecidableEq, Repr

/-- Embeds the success-response construction of the POST handler
(src/src/index.ts lines 280-297): Continue maps to a send_message
command, Transfer to go_to_next_block; valuesToSave is attached only when
non-empty, events only when non-empty. -/
def buildExternalResponse (result : AgentResponse)
    (valueStorage : List (String × String)) (events : List Event) :
    ExternalAgentResponse :=
  { command :=
      match result with
      | .cont m => .sendMessage m
      | .transfer nextBlock m => .goToNextBlock nextBlock m
    valuesToSave := if valueStorage.length > 0 then some valueStorage else none
    events := if events.length > 0 then some events else none }

/-- Embeds the POST handler's outcome translation including its catch
branch (src/src/index.ts lines 280-331): success returns the built
response with status 200; a ZodError returns a fixed 400 body; any other
failure returns a 500 body whose error field is the fixed marker and
whose message field is the thrown error's own message text. -/
def postHandler (result : Except HandlerError AgentResponse)
    (valueStorage : List (String × String)) (events : List Event) :
    WireResponse :=
  match result with
  | .ok r => .success (buildExternalResponse r valueStorage events)
  | .error (.zodError _) =>
      .failure { status := 400, error := "Bad request", message := "Invalid request format" }
  | .error (.businessError m) =>
      .failure { status := 500, error := "Internal server error", message := m }

/-- Counterexample to C9 as stated: a business-logic failure's raw message
text appears verbatim in the message field of the 500 error response sent
to the orchestrator. -/
theorem error_response_exposes_message_counterexample :
    postHandler (.error (.businessError "OpenAI refused to respond: internal detail")) [] []
      = .failure { status := 500, error := "Internal server error",
                   message := "OpenAI refused to respond: internal detail" } := rfl

/-- Claim C9 amended: the orchestrator receives either the well-formed
command response built from the business-logic result, the fixed 400
bad-request body, or a 500 body with the fixed "Internal server error"
marker whose message field carries the failure's raw message text — so
the raw exception message is exposed in the 500 response body. -/
theorem post_handler_outcomes (result : Except HandlerError AgentResponse)
    (valueStorage : List (String × String)) (events : List Event) :
    (∃ r, result = .ok r ∧ postHandler result valueStorage events
        = .success (buildExternalResponse r valueStorage events))
  ∨ (∃ m, result = .error (.zodError m) ∧ postHandler result valueStorage events
        = .failure { status := 400, error := "Bad request"
                     message := "Invalid request format" })
  ∨ (∃ m, result = .error (.businessError m) ∧ postHandler result valueStorage events
        = .failure { status := 500, error := "Internal server error", message := m }) := by
  rcases result with e | r
  · rcases e with m | m
    · exact .inr (.inl ⟨m, rfl, rfl⟩)
    · exact .inr (.inr ⟨m, rfl, rfl⟩)
  · exact .inl ⟨r, rfl, rfl⟩

end ZowieAgent
